import Mathlib

/-!
Shallow embedding of `SensorDataScraper.py` (blackyaksha/scraper_clone).

The pipeline is: Selenium fetch → per-table positional extraction
(`scrape_sensor_data`) → CSV mirror (`save_csv`) → category-keyed JSON
snapshot (`convert_csv_to_json`) → persisted file served by the FastAPI
endpoint (`get_sensor_data`).  A background loop (`start_auto_scraper`)
repeats the cycle, and a module-level bootstrap block initialises the
snapshot file on startup.

Modelling conventions:
* a scraped table row is a `List String` of already-`.text`-extracted cells;
  `.strip()` is `pyStrip` (structural recursion so concrete runs reduce);
* Python `cols[i]` on a too-short list raises `IndexError`; extraction is
  therefore `Except String` with out-of-bounds access producing
  `.error "IndexError"`;
* the pandas CSV round-trip between `save_csv` and `convert_csv_to_json`
  is modelled as the identity on the record list; a record field that a
  table did not supply is `Option.none`, and `row.get(k, "")` is
  `Option.getD "" `;
* file-system state is a `Store` of the two `/tmp` file contents
  (`Option String`: `none` = file absent);
* the single JSON write `open(SENSOR_DATA_FILE, "w"); json.dump(...)` is
  modelled as the operation sequence "truncate the published path, then
  write the document to the published path", so that the contents a
  concurrent reader could observe are explicit.
-/

namespace SensorScraper

/-- One JSON object entry: an ordered list of (key, value) pairs, mirroring a
Python dict literal with string values. -/
abbrev Entry := List (String × String)

/-- Runtime storage path `SENSOR_DATA_FILE` from the source. -/
def SENSOR_DATA_FILE : String := "/tmp/sensor_data.json"

/-- Runtime storage path `CSV_FILE_PATH` from the source. -/
def CSV_FILE_PATH : String := "/tmp/sensor_data.csv"

/-- The `SENSOR_CATEGORIES` roster from the source: category name → ordered
list of canonical station names. -/
def SENSOR_CATEGORIES : List (String × List String) :=
  [("rain_gauge",
    ["QCPU", "Masambong", "Batasan Hills", "Ugong Norte", "Ramon Magsaysay HS",
     "UP Village", "Dona Imelda", "Kaligayahan", "Emilio Jacinto Sr HS", "Payatas ES",
     "Ramon Magsaysay Brgy Hall", "Phil-Am", "Holy Spirit", "Libis",
     "South Triangle", "Nagkaisang Nayon", "Tandang Sora", "Talipapa",
     "Balingasa High School", "Toro Hills Elementary School",
     "Quezon City University San Francisco Campus",
     "Maharlika Brgy Hall", "Bagong Silangan Evacuation Center",
     "Dona Juana Elementary School",
     "Quirino High School", "Old Balara Elementary School",
     "Pansol Kaingin 1 Brgy Satellite Office",
     "Jose P Laurel Senior High School", "Pinyahan Multipurose Hall",
     "Sikatuna Brgy Hall",
     "Kalusugan Brgy Hall", "Laging Handa Barangay Hall",
     "Amoranto Sport Complex", "Maligaya High School",
     "San Agustin Brgy Hall", "Jose Maria Panganiban Senior High School",
     "North Fairview Elementary School",
     "Sauyo Elementary School", "New Era Brgy Hall",
     "Ismael Mathay Senior High School"]),
   ("flood_sensors",
    ["North Fairview", "Batasan-San Mateo", "Bahay Toro", "Sta Cruz", "San Bartolome"]),
   ("street_flood_sensors",
    ["N.S. Amoranto Street", "New Greenland", "Kalantiaw Street", "F. Calderon Street",
     "Christine Street", "Ramon Magsaysay Brgy Hall", "Phil-Am", "Holy Spirit",
     "Libis", "South Triangle", "Nagkaisang Nayon", "Tandang Sora", "Talipapa"]),
   ("flood_risk_index",
    ["N.S. Amoranto Street", "New Greenland", "Kalantiaw Street", "F. Calderon Street",
     "Christine Street", "Ramon Magsaysay Brgy Hall", "Phil-Am", "Holy Spirit",
     "Libis", "South Triangle", "Nagkaisang Nayon", "Tandang Sora", "Talipapa"]),
   ("earthquake_sensors", ["QCDRRMO", "QCDRRMO REC"])]

/-- Station list of one roster category (empty for an unknown category). -/
def rosterOf (c : String) : List String :=
  ((SENSOR_CATEGORIES.find? (fun p => p.1 == c)).map Prod.snd).getD []

/-- One scraped record, as built by the table loops of `scrape_sensor_data`
and written to the CSV: the `CATEGORY` and `SENSOR NAME` columns are always
present; the remaining columns are present only when the originating table
supplied them. -/
structure RawRow where
  category : String
  sensorName : String
  obsTime : Option String
  normalLevel : Option String
  current : Option String
  description : Option String
deriving DecidableEq, Repr

/-- Entry builder for the merged `rain_gauge` bucket of
`convert_csv_to_json`: only `SENSOR NAME` and `CURRENT`. -/
def rainEntry (r : RawRow) : Entry :=
  [("SENSOR NAME", r.sensorName), ("CURRENT", r.current.getD "")]

/-- Entry builder for the `flood_sensors` bucket of `convert_csv_to_json`. -/
def floodEntry (r : RawRow) : Entry :=
  [("SENSOR NAME", r.sensorName), ("NORMAL LEVEL", r.normalLevel.getD ""),
   ("CURRENT", r.current.getD "")]

/-- Entry builder for the `street_flood_sensors` bucket of
`convert_csv_to_json`. -/
def streetEntry (r : RawRow) : Entry :=
  [("SENSOR NAME", r.sensorName), ("NORMAL LEVEL", r.normalLevel.getD ""),
   ("CURRENT", r.current.getD ""), ("DESCRIPTION", r.description.getD "")]

/-- Entry builder for the `flood_risk_index` bucket of
`convert_csv_to_json`. -/
def riskEntry (r : RawRow) : Entry :=
  [("SENSOR NAME", r.sensorName), ("NORMAL LEVEL", r.normalLevel.getD ""),
   ("CURRENT", r.current.getD "")]

/-- Entry builder for the `river_flow_sensor` bucket of
`convert_csv_to_json`. -/
def riverEntry (r : RawRow) : Entry :=
  [("SENSOR NAME", r.sensorName), ("NORMAL LEVEL", r.normalLevel.getD ""),
   ("CURRENT", r.current.getD "")]

/-- Entry builder for the `earthquake_sensors` bucket of
`convert_csv_to_json`: only `SENSOR NAME` and `CURRENT`. -/
def quakeEntry (r : RawRow) : Entry :=
  [("SENSOR NAME", r.sensorName), ("CURRENT", r.current.getD "")]

/-- The `categorized` dict of `convert_csv_to_json`: six buckets, in the
insertion order of the source's dict literal. -/
@[ext]
structure Categorized where
  rain_gauge : List Entry
  flood_sensors : List Entry
  street_flood_sensors : List Entry
  flood_risk_index : List Entry
  river_flow_sensor : List Entry
  earthquake_sensors : List Entry
deriving DecidableEq, Repr

/-- `category in ["rain_gauge", "rain_gauge_nowcast"]` from the source. -/
def isRainRow (r : RawRow) : Bool :=
  r.category == "rain_gauge" || r.category == "rain_gauge_nowcast"

/-- `category == "flood_sensors"` from the source. -/
def isFloodRow (r : RawRow) : Bool := r.category == "flood_sensors"

/-- `category == "street_flood_sensors"` from the source. -/
def isStreetRow (r : RawRow) : Bool := r.category == "street_flood_sensors"

/-- `category == "flood_risk_index"` from the source. -/
def isRiskRow (r : RawRow) : Bool := r.category == "flood_risk_index"

/-- `category == "river_flow_sensor"` from the source. -/
def isRiverRow (r : RawRow) : Bool := r.category == "river_flow_sensor"

/-- `category == "earthquake_sensors"` from the source. -/
def isQuakeRow (r : RawRow) : Bool := r.category == "earthquake_sensors"

/-- The body of the `for _, row in df.iterrows()` loop of
`convert_csv_to_json`: dispatch on the `CATEGORY` column and append the
projected entry to the matching bucket; rows of any other category are
dropped (no `else` branch in the source). -/
def categorizeStep (acc : Categorized) (r : RawRow) : Categorized :=
  if isRainRow r then
    ⟨acc.rain_gauge ++ [rainEntry r], acc.flood_sensors, acc.street_flood_sensors,
     acc.flood_risk_index, acc.river_flow_sensor, acc.earthquake_sensors⟩
  else if isFloodRow r then
    ⟨acc.rain_gauge, acc.flood_sensors ++ [floodEntry r], acc.street_flood_sensors,
     acc.flood_risk_index, acc.river_flow_sensor, acc.earthquake_sensors⟩
  else if isStreetRow r then
    ⟨acc.rain_gauge, acc.flood_sensors, acc.street_flood_sensors ++ [streetEntry r],
     acc.flood_risk_index, acc.river_flow_sensor, acc.earthquake_sensors⟩
  else if isRiskRow r then
    ⟨acc.rain_gauge, acc.flood_sensors, acc.street_flood_sensors,
     acc.flood_risk_index ++ [riskEntry r], acc.river_flow_sensor, acc.earthquake_sensors⟩
  else if isRiverRow r then
    ⟨acc.rain_gauge, acc.flood_sensors, acc.street_flood_sensors,
     acc.flood_risk_index, acc.river_flow_sensor ++ [riverEntry r], acc.earthquake_sensors⟩
  else if isQuakeRow r then
    ⟨acc.rain_gauge, acc.flood_sensors, acc.street_flood_sensors,
     acc.flood_risk_index, acc.river_flow_sensor, acc.earthquake_sensors ++ [quakeEntry r]⟩
  else acc

/-- `convert_csv_to_json` as a function of the record list read back from
the CSV: start from six empty buckets and run the loop body over the rows. -/
def convert_csv_to_json (rows : List RawRow) : Categorized :=
  rows.foldl categorizeStep ⟨[], [], [], [], [], []⟩

/-- The JSON object written by `json.dump(categorized, f)`: category keys in
the dict-literal insertion order, each mapped to its ordered entry list. -/
def toKeyed (c : Categorized) : List (String × List Entry) :=
  [("rain_gauge", c.rain_gauge), ("flood_sensors", c.flood_sensors),
   ("street_flood_sensors", c.street_flood_sensors),
   ("flood_risk_index", c.flood_risk_index),
   ("river_flow_sensor", c.river_flow_sensor),
   ("earthquake_sensors", c.earthquake_sensors)]

/-- Merged-rain bucket contents predicted from the rows. -/
def rainPart (rows : List RawRow) : List Entry :=
  (rows.filter isRainRow).map rainEntry

/-- Flood-sensor bucket contents predicted from the rows. -/
def floodPart (rows : List RawRow) : List Entry :=
  (rows.filter isFloodRow).map floodEntry

/-- Street-flood bucket contents predicted from the rows. -/
def streetPart (rows : List RawRow) : List Entry :=
  (rows.filter isStreetRow).map streetEntry

/-- Flood-risk bucket contents predicted from the rows. -/
def riskPart (rows : List RawRow) : List Entry :=
  (rows.filter isRiskRow).map riskEntry

/-- River-flow bucket contents predicted from the rows. -/
def riverPart (rows : List RawRow) : List Entry :=
  (rows.filter isRiverRow).map riverEntry

/-- Earthquake bucket contents predicted from the rows. -/
def quakePart (rows : List RawRow) : List Entry :=
  (rows.filter isQuakeRow).map quakeEntry

/-! ### Extraction (`scrape_sensor_data`, tables 1–7) -/

/-- The seven table regions of the dashboard page, as row lists of text
cells (in the XPath order `(//table)[1]` … `(//table)[7]` of the source). -/
structure Page where
  rainRows : List (List String)
  nowcastRows : List (List String)
  floodRows : List (List String)
  streetRows : List (List String)
  riskRows : List (List String)
  riverRows : List (List String)
  eqRows : List (List String)
deriving DecidableEq, Repr

/-- Python `.strip()`: drop whitespace from both ends (written with
structural list recursion so that concrete runs reduce in the kernel). -/
def pyStrip (s : String) : String :=
  ⟨((s.data.dropWhile Char.isWhitespace).reverse.dropWhile Char.isWhitespace).reverse⟩

/-- Python `cols[i]`: the cell when it exists, an `IndexError` otherwise. -/
def cellOrErr (cols : List String) (i : Nat) : Except String String :=
  match cols.get? i with
  | some c => .ok c
  | none => .error "IndexError"

/-- Rain-gauge table loop (table 1): guard `len(cols) >= 4`, fields
`SENSOR NAME = cols[0]`, `OBS TIME = cols[1]`, `NORMAL LEVEL = cols[3]`,
`CURRENT = cols[2]`, each `.strip()`ed. -/
def extractRainRows : List (List String) → Except String (List RawRow)
  | [] => .ok []
  | cols :: rest =>
    if cols.length ≥ 4 then do
      let c0 ← cellOrErr cols 0
      let c1 ← cellOrErr cols 1
      let c3 ← cellOrErr cols 3
      let c2 ← cellOrErr cols 2
      let tail ← extractRainRows rest
      .ok (⟨"rain_gauge", pyStrip c0, some (pyStrip c1), some (pyStrip c3), some (pyStrip c2), none⟩ :: tail)
    else extractRainRows rest

/-- Rain-gauge nowcast table loop (table 2): guard `len(cols) >= 2`,
fields `SENSOR NAME = cols[0]`, `CURRENT = cols[1]`. -/
def extractNowcastRows : List (List String) → Except String (List RawRow)
  | [] => .ok []
  | cols :: rest =>
    if cols.length ≥ 2 then do
      let c0 ← cellOrErr cols 0
      let c1 ← cellOrErr cols 1
      let tail ← extractNowcastRows rest
      .ok (⟨"rain_gauge_nowcast", pyStrip c0, none, none, some (pyStrip c1), none⟩ :: tail)
    else extractNowcastRows rest

/-- Flood-sensors table loop (table 3): guard `len(cols) >= 3`, fields
`SENSOR NAME = cols[0]`, `NORMAL LEVEL = cols[2]`, `CURRENT = cols[3]`.
Note the guard admits 3-cell rows although `cols[3]` needs a 4th cell. -/
def extractFloodRows : List (List String) → Except String (List RawRow)
  | [] => .ok []
  | cols :: rest =>
    if cols.length ≥ 3 then do
      let c0 ← cellOrErr cols 0
      let c2 ← cellOrErr cols 2
      let c3 ← cellOrErr cols 3
      let tail ← extractFloodRows rest
      .ok (⟨"flood_sensors", pyStrip c0, none, some (pyStrip c2), some (pyStrip c3), none⟩ :: tail)
    else extractFloodRows rest

/-- Street-flood table loop (table 4): guard `len(cols) >= 5`, fields
`SENSOR NAME = cols[0]`, `NORMAL LEVEL = cols[2]`, `CURRENT = cols[3]`,
`DESCRIPTION = cols[4]`. -/
def extractStreetRows : List (List String) → Except String (List RawRow)
  | [] => .ok []
  | cols :: rest =>
    if cols.length ≥ 5 then do
      let c0 ← cellOrErr cols 0
      let c2 ← cellOrErr cols 2
      let c3 ← cellOrErr cols 3
      let c4 ← cellOrErr cols 4
      let tail ← extractStreetRows rest
      .ok (⟨"street_flood_sensors", pyStrip c0, none, some (pyStrip c2), some (pyStrip c3), some (pyStrip c4)⟩ :: tail)
    else extractStreetRows rest

/-- Flood-risk-index table loop (table 5): guard `len(cols) >= 4`, fields
`SENSOR NAME = cols[0]`, `OBS TIME = cols[1]`, `NORMAL LEVEL = cols[3]`,
`CURRENT = cols[2]`. -/
def extractRiskRows : List (List String) → Except String (List RawRow)
  | [] => .ok []
  | cols :: rest =>
    if cols.length ≥ 4 then do
      let c0 ← cellOrErr cols 0
      let c1 ← cellOrErr cols 1
      let c3 ← cellOrErr cols 3
      let c2 ← cellOrErr cols 2
      let tail ← extractRiskRows rest
      .ok (⟨"flood_risk_index", pyStrip c0, some (pyStrip c1), some (pyStrip c3), some (pyStrip c2), none⟩ :: tail)
    else extractRiskRows rest

/-- River-flow table loop (table 6): guard `len(cols) >= 3`, fields
`SENSOR NAME = cols[0]`, `NORMAL LEVEL = cols[3]`, `CURRENT = cols[2]`.
Note the guard admits 3-cell rows although `cols[3]` needs a 4th cell. -/
def extractRiverRows : List (List String) → Except String (List RawRow)
  | [] => .ok []
  | cols :: rest =>
    if cols.length ≥ 3 then do
      let c0 ← cellOrErr cols 0
      let c3 ← cellOrErr cols 3
      let c2 ← cellOrErr cols 2
      let tail ← extractRiverRows rest
      .ok (⟨"river_flow_sensor", pyStrip c0, none, some (pyStrip c3), some (pyStrip c2), none⟩ :: tail)
    else extractRiverRows rest

/-- Earthquake table loop (table 7): guard `len(cols) >= 3`, fields
`SENSOR NAME = cols[0]`, `OBS TIME = cols[1]`, `CURRENT = cols[2]`. -/
def extractQuakeRows : List (List String) → Except String (List RawRow)
  | [] => .ok []
  | cols :: rest =>
    if cols.length ≥ 3 then do
      let c0 ← cellOrErr cols 0
      let c1 ← cellOrErr cols 1
      let c2 ← cellOrErr cols 2
      let tail ← extractQuakeRows rest
      .ok (⟨"earthquake_sensors", pyStrip c0, some (pyStrip c1), none, some (pyStrip c2), none⟩ :: tail)
    else extractQuakeRows rest

/-- The seven table loops of `scrape_sensor_data` in source order,
accumulating into `sensor_data`; the first raised `IndexError` aborts the
whole batch, exactly as a raised exception leaves the Python loop nest. -/
def extract_all (p : Page) : Except String (List RawRow) := do
  let r1 ← extractRainRows p.rainRows
  let r2 ← extractNowcastRows p.nowcastRows
  let r3 ← extractFloodRows p.floodRows
  let r4 ← extractStreetRows p.streetRows
  let r5 ← extractRiskRows p.riskRows
  let r6 ← extractRiverRows p.riverRows
  let r7 ← extractQuakeRows p.eqRows
  .ok (r1 ++ r2 ++ r3 ++ r4 ++ r5 ++ r6 ++ r7)

/-- Modelled from the spec: "extraction itself reported no tables located
at all".  The source has no such structural signal; this predicate captures
the spec's notion — at least one table region on the page is non-empty. -/
def tablesLocated (p : Page) : Bool :=
  !(p.rainRows.isEmpty && p.nowcastRows.isEmpty && p.floodRows.isEmpty &&
    p.streetRows.isEmpty && p.riskRows.isEmpty && p.riverRows.isEmpty &&
    p.eqRows.isEmpty)

/-! ### Fetch retry loop (`wait_for_page_load`) and one scrape cycle -/

/-- One fetch environment: the outcome of each page-load attempt (indexed
by attempt number) and the page contents on success. -/
structure FetchEnv where
  loadOutcome : Nat → Bool
  page : Page

/-- The `for attempt in range(max_retries)` body of `wait_for_page_load`:
a successful attempt returns `True`; a failed last attempt re-raises; a
failed earlier attempt sleeps and retries.  Falling out of the loop
(only possible with `max_retries = 0`) returns `False`. -/
def wait_loop (outcome : Nat → Bool) (i : Nat) : Nat → Except String Bool
  | 0 => .ok false
  | remaining + 1 =>
    if outcome i then .ok true
    else if remaining = 0 then .error "page load failed"
    else wait_loop outcome (i + 1) remaining

/-- `wait_for_page_load(driver, url)` with its default `max_retries=3`. -/
def wait_for_page_load (outcome : Nat → Bool) (max_retries : Nat) : Except String Bool :=
  wait_loop outcome 0 max_retries

/-- The record-producing part of `scrape_sensor_data`: load the page with
three retries, run the seven table loops, and raise `ValueError` when the
accumulated `sensor_data` list is empty. -/
def scrape_sensor_data (env : FetchEnv) : Except String (List RawRow) :=
  match wait_for_page_load env.loadOutcome 3 with
  | .error e => .error e
  | .ok false => .error "Failed to load page after multiple attempts"
  | .ok true =>
    match extract_all env.page with
    | .error e => .error e
    | .ok records =>
      if records.isEmpty then
        .error "No sensor data extracted. Check website structure."
      else .ok records

/-! ### Persistence, scheduler loop, bootstrap, API reader -/

/-- Serialization of one JSON string value. -/
def jstr (s : String) : String := "\"" ++ s ++ "\""

/-- Serialization of one entry object. -/
def serializeEntry (e : Entry) : String :=
  "\x7b" ++ String.intercalate ", " (e.map fun kv => jstr kv.1 ++ ": " ++ jstr kv.2) ++ "\x7d"

/-- Serialization of one category's entry array. -/
def serializeEntries (l : List Entry) : String :=
  "[" ++ String.intercalate ", " (l.map serializeEntry) ++ "]"

/-- Serialization of a category-keyed JSON object (`json.dump`, with the
indentation abstracted away: only document identity matters below). -/
def serializeKeyed (k : List (String × List Entry)) : String :=
  "\x7b" ++ String.intercalate ", " (k.map fun kv => jstr kv.1 ++ ": " ++ serializeEntries kv.2) ++ "\x7d"

/-- The JSON document `json.dump(categorized, f)` produces. -/
def serializeJson (c : Categorized) : String := serializeKeyed (toKeyed c)

/-- One CSV field (`NaN`/absent rendered as the empty field). -/
def csvField : Option String → String
  | some s => s
  | none => ""

/-- One CSV data line of the tabular mirror. -/
def serializeCsvRow (r : RawRow) : String :=
  String.intercalate "," [r.category, r.sensorName, csvField r.obsTime,
    csvField r.normalLevel, csvField r.current, csvField r.description]

/-- The tabular mirror `df.to_csv(CSV_FILE_PATH)` writes (`save_csv`):
a fixed union-of-fields header plus one line per record. -/
def serializeCsv (rows : List RawRow) : String :=
  String.intercalate "\n"
    ("CATEGORY,SENSOR NAME,OBS TIME,NORMAL LEVEL,CURRENT,DESCRIPTION" ::
      rows.map serializeCsvRow)

/-- The two persisted files (`none` = the file does not exist). -/
structure Store where
  jsonContent : Option String
  csvContent : Option String
deriving DecidableEq, Repr

/-- One full `scrape_sensor_data()` call including its persistence side
effects: on success `save_csv` then `convert_csv_to_json` overwrite both
files; on a raised failure nothing has been written and the exception
propagates. -/
def run_cycle (store : Store) (env : FetchEnv) : Store × Except String Unit :=
  match scrape_sensor_data env with
  | .error e => (store, .error e)
  | .ok records =>
    (⟨some (serializeJson (convert_csv_to_json records)),
      some (serializeCsv records)⟩, .ok ())

/-- One iteration of the `while True` loop of `start_auto_scraper`: the
cycle runs under `try/except`, so a failure is logged and the loop simply
proceeds with the files untouched. -/
def start_auto_scraper_step (store : Store) (env : FetchEnv) : Store :=
  (run_cycle store env).1

/-- The scheduler loop run over a finite list of per-cycle environments. -/
def start_auto_scraper_run (store : Store) : List FetchEnv → Store
  | [] => store
  | env :: envs => start_auto_scraper_run (start_auto_scraper_step store env) envs

/-- The `\x7bkey: [] for key in SENSOR_CATEGORIES.keys()\x7d` skeleton
written by the bootstrap's last resort. -/
def skeleton_keyed : List (String × List Entry) :=
  SENSOR_CATEGORIES.map fun p => (p.1, ([] : List Entry))

/-- The serialized empty-skeleton document. -/
def skeleton_json_string : String := serializeKeyed skeleton_keyed

/-- The module-level startup block: if the runtime JSON file already
exists, do nothing; otherwise try one live scrape cycle; if it raises,
copy the bundled repo fallback when that file exists, else write the empty
skeleton. -/
def startup_bootstrap (store : Store) (env : FetchEnv)
    (bundledDefault : Option String) : Store :=
  match store.jsonContent with
  | some _ => store
  | none =>
    match run_cycle store env with
    | (store1, .ok _) => store1
    | (store1, .error _) =>
      match bundledDefault with
      | some d => ⟨some d, store1.csvContent⟩
      | none => ⟨some skeleton_json_string, store1.csvContent⟩

/-- What the reader finds at `SENSOR_DATA_FILE`: nothing, an unparseable
file, or a parsed category-keyed document. -/
inductive StoredFile where
  | absent
  | unparseable (raw : String)
  | parsed (doc : List (String × List Entry))
deriving DecidableEq, Repr

/-- The response of the `/api/sensor-data` endpoint. -/
inductive ApiResponse where
  | ok (doc : List (String × List Entry))
  | httpError (status : Nat) (detail : String)
  | raisedError
deriving DecidableEq, Repr

/-- `get_sensor_data`: if the file exists, `json.load` it (a parse failure
raises out of the handler, uncaught); otherwise raise
`HTTPException(404, "Sensor data not available")`. -/
def get_sensor_data : StoredFile → ApiResponse
  | .parsed doc => .ok doc
  | .unparseable _ => .raisedError
  | .absent => .httpError 404 "Sensor data not available"

/-! ### File-operation trace of the JSON write (`convert_csv_to_json`) -/

/-- The primitive file operations the persist step performs. -/
inductive FileOp where
  | truncateOpen (path : String)
  | writeAll (path : String) (data : String)
deriving DecidableEq, Repr

/-- The path an operation touches. -/
def FileOp.path : FileOp → String
  | .truncateOpen p => p
  | .writeAll p _ => p

/-- The operation sequence of `with open(SENSOR_DATA_FILE, "w") as f:
json.dump(categorized, f)`: opening with mode `"w"` truncates the
published file in place, then the document is written to the same path.
No temporary file and no rename appear in the source. -/
def persistJsonOps (doc : String) : List FileOp :=
  [FileOp.truncateOpen SENSOR_DATA_FILE, FileOp.writeAll SENSOR_DATA_FILE doc]

/-- Effect of one operation on the content of the file at `watched`. -/
def applyOpAt (watched : String) (content : String) : FileOp → String
  | .truncateOpen p => if p = watched then "" else content
  | .writeAll p d => if p = watched then d else content

/-- Every content of the file at `watched` that a concurrent reader could
observe while the operation sequence runs: the content before each
operation and after the last. -/
def observedContents (watched : String) (start : String) : List FileOp → List String
  | [] => [start]
  | op :: ops => start :: observedContents watched (applyOpAt watched start op) ops

/-! ### Concrete fixtures used by the theorems below -/

/-- A flood-sensors table row for a station that is not in the roster. -/
def ghostPage : Page := ⟨[], [], [["Ghost Station", "10:00", "10m", "12m"]], [], [], [], []⟩

/-- Environment whose page load succeeds and serves `ghostPage`. -/
def envGhost : FetchEnv := ⟨fun _ => true, ghostPage⟩

/-- The record the ghost row extracts to. -/
def ghostRec : RawRow := ⟨"flood_sensors", "Ghost Station", none, some "10m", some "12m", none⟩

/-- A nowcast table row giving exactly `{name: "QCPU", current: "12.5mm"}`. -/
def nowcastPage : Page := ⟨[], [["QCPU", "12.5mm"]], [], [], [], [], []⟩

/-- Environment whose page load succeeds and serves `nowcastPage`. -/
def envNowcast : FetchEnv := ⟨fun _ => true, nowcastPage⟩

/-- The record the nowcast row extracts to. -/
def qcpuRec : RawRow := ⟨"rain_gauge_nowcast", "QCPU", none, none, some "12.5mm", none⟩

/-- A page whose flood table is located but whose only row is too short,
so every loop skips and zero records are extracted. -/
def skippedRowsPage : Page := ⟨[], [], [["Station A", "10:00"]], [], [], [], []⟩

/-- Environment whose page load succeeds and serves `skippedRowsPage`. -/
def envSkipped : FetchEnv := ⟨fun _ => true, skippedRowsPage⟩

/-- Environment whose page load fails on every attempt. -/
def envFail : FetchEnv := ⟨fun _ => false, ⟨[], [], [], [], [], [], []⟩⟩

/-- A rain-gauge table row yielding one well-formed record. -/
def goodPage : Page := ⟨[["QCPU", "06:00", "12.5mm", "15mm"]], [], [], [], [], [], []⟩

/-- Environment whose page load succeeds and serves `goodPage`. -/
def envGood : FetchEnv := ⟨fun _ => true, goodPage⟩

/-- The record the good rain row extracts to. -/
def goodRec : RawRow := ⟨"rain_gauge", "QCPU", some "06:00", some "15mm", some "12.5mm", none⟩

/-- A store with both files present. -/
def storeW : Store := ⟨some "J", some "C"⟩

/-- A flood-sensors table row with exactly three cells: the guard
`len(cols) >= 3` admits it, but the loop body reads `cols[3]`. -/
def threeColPage : Page := ⟨[], [], [["Station X", "10:00", "1.5m"]], [], [], [], []⟩

/-- Environment whose page load succeeds and serves `threeColPage`. -/
def envThreeCol : FetchEnv := ⟨fun _ => true, threeColPage⟩

/-! ### Bucket-by-bucket characterization of `convert_csv_to_json` -/

theorem step_rain_pos (acc : Categorized) (r : RawRow) (h : isRainRow r = true) :
    (categorizeStep acc r).rain_gauge = acc.rain_gauge ++ [rainEntry r] := by
  simp [categorizeStep, h]

theorem step_rain_neg (acc : Categorized) (r : RawRow) (h : isRainRow r = false) :
    (categorizeStep acc r).rain_gauge = acc.rain_gauge := by
  simp only [categorizeStep, h, Bool.false_eq_true, if_false]
  try split <;> try rfl
  try split <;> try rfl
  try split <;> try rfl
  try split <;> try rfl
  try split <;> try rfl

theorem step_flood_pos (acc : Categorized) (r : RawRow) (h : isFloodRow r = true) :
    (categorizeStep acc r).flood_sensors = acc.flood_sensors ++ [floodEntry r] := by
  have hc : r.category = "flood_sensors" := by simpa [isFloodRow] using h
  simp [categorizeStep, isRainRow, isFloodRow, hc]

theorem step_flood_neg (acc : Categorized) (r : RawRow) (h : isFloodRow r = false) :
    (categorizeStep acc r).flood_sensors = acc.flood_sensors := by
  simp only [categorizeStep, h, Bool.false_eq_true, if_false]
  try split <;> try rfl
  try split <;> try rfl
  try split <;> try rfl
  try split <;> try rfl
  try split <;> try rfl

theorem step_street_pos (acc : Categorized) (r : RawRow) (h : isStreetRow r = true) :
    (categorizeStep acc r).street_flood_sensors = acc.street_flood_sensors ++ [streetEntry r] := by
  have hc : r.category = "street_flood_sensors" := by simpa [isStreetRow] using h
  simp [categorizeStep, isRainRow, isFloodRow, isStreetRow, hc]

theorem step_street_neg (acc : Categorized) (r : RawRow) (h : isStreetRow r = false) :
    (categorizeStep acc r).street_flood_sensors = acc.street_flood_sensors := by
  simp only [categorizeStep, h, Bool.false_eq_true, if_false]
  try split <;> try rfl
  try split <;> try rfl
  try split <;> try rfl
  try split <;> try rfl
  try split <;> try rfl

theorem step_risk_pos (acc : Categorized) (r : RawRow) (h : isRiskRow r = true) :
    (categorizeStep acc r).flood_risk_index = acc.flood_risk_index ++ [riskEntry r] := by
  have hc : r.category = "flood_risk_index" := by simpa [isRiskRow] using h
  simp [categorizeStep, isRainRow, isFloodRow, isStreetRow, isRiskRow, hc]

theorem step_risk_neg (acc : Categorized) (r : RawRow) (h : isRiskRow r = false) :
    (categorizeStep acc r).flood_risk_index = acc.flood_risk_index := by
  simp only [categorizeStep, h, Bool.false_eq_true, if_false]
  try split <;> try rfl
  try split <;> try rfl
  try split <;> try rfl
  try split <;> try rfl
  try split <;> try rfl

theorem step_river_pos (acc : Categorized) (r : RawRow) (h : isRiverRow r = true) :
    (categorizeStep acc r).river_flow_sensor = acc.river_flow_sensor ++ [riverEntry r] := by
  have hc : r.category = "river_flow_sensor" := by simpa [isRiverRow] using h
  simp [categorizeStep, isRainRow, isFloodRow, isStreetRow, isRiskRow, isRiverRow, hc]

theorem step_river_neg (acc : Categorized) (r : RawRow) (h : isRiverRow r = false) :
    (categorizeStep acc r).river_flow_sensor = acc.river_flow_sensor := by
  simp only [categorizeStep, h, Bool.false_eq_true, if_false]
  try split <;> try rfl
  try split <;> try rfl
  try split <;> try rfl
  try split <;> try rfl
  try split <;> try rfl

theorem step_quake_pos (acc : Categorized) (r : RawRow) (h : isQuakeRow r = true) :
    (categorizeStep acc r).earthquake_sensors = acc.earthquake_sensors ++ [quakeEntry r] := by
  have hc : r.category = "earthquake_sensors" := by simpa [isQuakeRow] using h
  simp [categorizeStep, isRainRow, isFloodRow, isStreetRow, isRiskRow, isRiverRow, isQuakeRow, hc]

theorem step_quake_neg (acc : Categorized) (r : RawRow) (h : isQuakeRow r = false) :
    (categorizeStep acc r).earthquake_sensors = acc.earthquake_sensors := by
  simp only [categorizeStep, h, Bool.false_eq_true, if_false]
  try split <;> try rfl
  try split <;> try rfl
  try split <;> try rfl
  try split <;> try rfl
  try split <;> try rfl

theorem foldl_rain (rows : List RawRow) : ∀ acc : Categorized,
    (rows.foldl categorizeStep acc).rain_gauge = acc.rain_gauge ++ rainPart rows := by
  induction rows with
  | nil => intro acc; simp [rainPart]
  | cons r rows ih =>
    intro acc
    rw [List.foldl_cons, ih]
    cases h : isRainRow r with
    | true => rw [step_rain_pos acc r h]; simp [rainPart, List.filter_cons, h, List.append_assoc]
    | false => rw [step_rain_neg acc r h]; simp [rainPart, List.filter_cons, h]

theorem foldl_flood (rows : List RawRow) : ∀ acc : Categorized,
    (rows.foldl categorizeStep acc).flood_sensors = acc.flood_sensors ++ floodPart rows := by
  induction rows with
  | nil => intro acc; simp [floodPart]
  | cons r rows ih =>
    intro acc
    rw [List.foldl_cons, ih]
    cases h : isFloodRow r with
    | true => rw [step_flood_pos acc r h]; simp [floodPart, List.filter_cons, h, List.append_assoc]
    | false => rw [step_flood_neg acc r h]; simp [floodPart, List.filter_cons, h]

theorem foldl_street (rows : List RawRow) : ∀ acc : Categorized,
    (rows.foldl categorizeStep acc).street_flood_sensors = acc.street_flood_sensors ++ streetPart rows := by
  induction rows with
  | nil => intro acc; simp [streetPart]
  | cons r rows ih =>
    intro acc
    rw [List.foldl_cons, ih]
    cases h : isStreetRow r with
    | true => rw [step_street_pos acc r h]; simp [streetPart, List.filter_cons, h, List.append_assoc]
    | false => rw [step_street_neg acc r h]; simp [streetPart, List.filter_cons, h]

theorem foldl_risk (rows : List RawRow) : ∀ acc : Categorized,
    (rows.foldl categorizeStep acc).flood_risk_index = acc.flood_risk_index ++ riskPart rows := by
  induction rows with
  | nil => intro acc; simp [riskPart]
  | cons r rows ih =>
    intro acc
    rw [List.foldl_cons, ih]
    cases h : isRiskRow r with
    | true => rw [step_risk_pos acc r h]; simp [riskPart, List.filter_cons, h, List.append_assoc]
    | false => rw [step_risk_neg acc r h]; simp [riskPart, List.filter_cons, h]

theorem foldl_river (rows : List RawRow) : ∀ acc : Categorized,
    (rows.foldl categorizeStep acc).river_flow_sensor = acc.river_flow_sensor ++ riverPart rows := by
  induction rows with
  | nil => intro acc; simp [riverPart]
  | cons r rows ih =>
    intro acc
    rw [List.foldl_cons, ih]
    cases h : isRiverRow r with
    | true => rw [step_river_pos acc r h]; simp [riverPart, List.filter_cons, h, List.append_assoc]
    | false => rw [step_river_neg acc r h]; simp [riverPart, List.filter_cons, h]

theorem foldl_quake (rows : List RawRow) : ∀ acc : Categorized,
    (rows.foldl categorizeStep acc).earthquake_sensors = acc.earthquake_sensors ++ quakePart rows := by
  induction rows with
  | nil => intro acc; simp [quakePart]
  | cons r rows ih =>
    intro acc
    rw [List.foldl_cons, ih]
    cases h : isQuakeRow r with
    | true => rw [step_quake_pos acc r h]; simp [quakePart, List.filter_cons, h, List.append_assoc]
    | false => rw [step_quake_neg acc r h]; simp [quakePart, List.filter_cons, h]

/-- `convert_csv_to_json` keeps, per bucket, exactly the scraped rows whose
`CATEGORY` matches, projected by the bucket's entry builder, in scrape
order; the roster plays no part. -/
theorem convert_csv_to_json_spec (rows : List RawRow) :
    convert_csv_to_json rows =
      ⟨rainPart rows, floodPart rows, streetPart rows,
       riskPart rows, riverPart rows, quakePart rows⟩ := by
  apply Categorized.ext <;>
    simp [convert_csv_to_json, foldl_rain, foldl_flood, foldl_street,
      foldl_risk, foldl_river, foldl_quake]

/-! ### Claim theorems -/

/-- Claim C1 is false on the code: a successfully published snapshot built
from a single scraped flood-sensor row for a station that is not in the
roster contains exactly that station's entry, so the category's entry
count (1) differs from the roster size (5) and a non-roster station does
appear in a published category. -/
theorem c1_counterexample :
    scrape_sensor_data envGhost = .ok [ghostRec] ∧
    (convert_csv_to_json [ghostRec]).flood_sensors =
      [[("SENSOR NAME", "Ghost Station"), ("NORMAL LEVEL", "10m"), ("CURRENT", "12m")]] ∧
    (rosterOf "flood_sensors").length = 5 ∧
    "Ghost Station" ∉ rosterOf "flood_sensors" ∧
    (∀ cat ∈ SENSOR_CATEGORIES, "Ghost Station" ∉ cat.2) ∧
    ((convert_csv_to_json [ghostRec]).flood_sensors).length ≠ (rosterOf "flood_sensors").length :=
  ⟨rfl, by decide, by decide, by decide, by decide, by decide⟩

/-- Claim C1 (amended): the published snapshot maps each category to one
entry per scraped row of that category (rain gauge merged with nowcast),
projected by that category's entry builder, in scrape order; the roster is
never consulted, so the entry count equals the number of matching scraped
rows and non-roster stations are published as-is. -/
theorem c1_amended (rows : List RawRow) :
    convert_csv_to_json rows =
      ⟨rainPart rows, floodPart rows, streetPart rows,
       riskPart rows, riverPart rows, quakePart rows⟩ ∧
    ((convert_csv_to_json rows).flood_sensors).length = (rows.filter isFloodRow).length := by
  refine ⟨convert_csv_to_json_spec rows, ?_⟩
  rw [convert_csv_to_json_spec rows]
  simp [floodPart]

/-- Claim C2 is false on the code: with a scrape yielding only
`{name: "QCPU", current: "12.5mm"}`, the published `rain_gauge` sequence
has a single entry; no default entry for the unmatched roster member
`Masambong` is synthesized, so the sequence is not the claimed two-entry
list. -/
theorem c2_counterexample :
    scrape_sensor_data envNowcast = .ok [qcpuRec] ∧
    (convert_csv_to_json [qcpuRec]).rain_gauge.length = 1 ∧
    (convert_csv_to_json [qcpuRec]).rain_gauge ≠
      [[("SENSOR NAME", "QCPU"), ("CURRENT", "12.5mm")],
       [("SENSOR NAME", "Masambong"), ("CURRENT", "0.0")]] :=
  ⟨rfl, by decide, by decide⟩

/-- Claim C2 (amended): a roster member with no matching record in the
cycle's raw records yields no entry at all; the scenario's snapshot is
`rain_gauge = [\x7bSENSOR NAME: "QCPU", CURRENT: "12.5mm"\x7d]`, and in
general no published rain-gauge entry carries a station name absent from
the scrape. -/
theorem c2_amended :
    scrape_sensor_data envNowcast = .ok [qcpuRec] ∧
    (convert_csv_to_json [qcpuRec]).rain_gauge =
      [[("SENSOR NAME", "QCPU"), ("CURRENT", "12.5mm")]] ∧
    ∀ rows : List RawRow, (∀ r ∈ rows, r.sensorName ≠ "Masambong") →
      ∀ e ∈ (convert_csv_to_json rows).rain_gauge, ("SENSOR NAME", "Masambong") ∉ e := by
  refine ⟨rfl, by decide, ?_⟩
  intro rows hw e he
  rw [convert_csv_to_json_spec] at he
  have he2 : e ∈ rainPart rows := he
  obtain ⟨r, hr, rfl⟩ := List.mem_map.1 he2
  have hname : r.sensorName ≠ "Masambong" := hw r (List.mem_of_mem_filter hr)
  simp [rainEntry, Ne.symm hname]

/-- Witness for the amended claim C2 at the concrete scenario input. -/
theorem c2_amended_witness :
    ("SENSOR NAME", "Masambong") ∉ [("SENSOR NAME", "QCPU"), ("CURRENT", "12.5mm")] :=
  c2_amended.2.2 [qcpuRec] (by decide)
    [("SENSOR NAME", "QCPU"), ("CURRENT", "12.5mm")] (by decide)

/-- Claim C3 is false on the code: when no snapshot file exists the reader
raises `HTTPException(404)`, a not-found response, rather than returning
an empty structurally valid snapshot. -/
theorem c3_counterexample :
    get_sensor_data .absent = .httpError 404 "Sensor data not available" ∧
    get_sensor_data .absent ≠ .ok skeleton_keyed :=
  ⟨rfl, by decide⟩

/-- Claim C3 (amended): if the snapshot file exists and parses, the reader
returns its contents as-is; if the file is absent it raises HTTP 404; if
the file exists but fails to parse, the `json.load` error propagates
uncaught. -/
theorem c3_amended :
    get_sensor_data .absent = .httpError 404 "Sensor data not available" ∧
    (∀ s, get_sensor_data (.unparseable s) = .raisedError) ∧
    (∀ doc, get_sensor_data (.parsed doc) = .ok doc) :=
  ⟨rfl, fun _ => rfl, fun _ => rfl⟩

/-- Claim C4 is false on the code: the persist step truncates the
published path in place and then writes the document to that same path —
no temporary file, no atomic replace — so a concurrent reader can observe
the truncated (empty) content, which is neither the prior nor the new
snapshot. -/
theorem c4_counterexample :
    observedContents SENSOR_DATA_FILE "OLD" (persistJsonOps "NEW") = ["OLD", "", "NEW"] ∧
    "" ≠ "OLD" ∧ "" ≠ "NEW" ∧
    (persistJsonOps "NEW").map FileOp.path = [SENSOR_DATA_FILE, SENSOR_DATA_FILE] :=
  ⟨rfl, by decide, by decide, rfl⟩

/-- Claim C4 (amended): the persist step opens the published path directly
with truncating mode and writes in place; every file operation targets the
published path, and the observable contents during publication are the
prior document, then the empty truncated file, then the new document. -/
theorem c4_amended (prior doc : String) :
    observedContents SENSOR_DATA_FILE prior (persistJsonOps doc) = [prior, "", doc] ∧
    (persistJsonOps doc).map FileOp.path = [SENSOR_DATA_FILE, SENSOR_DATA_FILE] :=
  ⟨rfl, rfl⟩

/-- Claim C5: when every page-load attempt of a cycle fails, the retry
budget is exhausted, the raised failure is caught by the scheduler loop,
the loop proceeds to the following cycles, and both persisted files are
byte-identical before and after the failed cycle. -/
theorem c5_theorem (store : Store) (env : FetchEnv)
    (h0 : env.loadOutcome 0 = false) (h1 : env.loadOutcome 1 = false)
    (h2 : env.loadOutcome 2 = false) :
    run_cycle store env = (store, .error "page load failed") ∧
    start_auto_scraper_step store env = store ∧
    ∀ envs, start_auto_scraper_run store (env :: envs) = start_auto_scraper_run store envs := by
  have hw : scrape_sensor_data env = .error "page load failed" := by
    simp [scrape_sensor_data, wait_for_page_load, wait_loop, h0, h1, h2]
  refine ⟨by simp [run_cycle, hw], by simp [start_auto_scraper_step, run_cycle, hw], ?_⟩
  intro envs
  simp [start_auto_scraper_run, start_auto_scraper_step, run_cycle, hw]

/-- Witness for claim C5 at a concrete store and an all-attempts-fail
environment. -/
theorem c5_witness :
    run_cycle storeW envFail = (storeW, .error "page load failed") ∧
    start_auto_scraper_step storeW envFail = storeW :=
  ⟨(c5_theorem storeW envFail rfl rfl rfl).1, (c5_theorem storeW envFail rfl rfl rfl).2.1⟩

/-- Claim C6: with no persisted snapshot, bootstrap tries exactly, in
order: one live scrape cycle; on its failure, the bundled default copy
when that file exists; otherwise the empty skeleton in which every roster
category is present and mapped to zero entries — so the snapshot file
exists after bootstrap in every case (and an existing snapshot is left
untouched). -/
theorem c6_theorem (csv : Option String) (env : FetchEnv) (bundled : Option String) :
    (∀ c, startup_bootstrap ⟨some c, csv⟩ env bundled = ⟨some c, csv⟩) ∧
    (∀ records, scrape_sensor_data env = .ok records →
      startup_bootstrap ⟨none, csv⟩ env bundled =
        ⟨some (serializeJson (convert_csv_to_json records)), some (serializeCsv records)⟩) ∧
    (∀ e d, scrape_sensor_data env = .error e →
      startup_bootstrap ⟨none, csv⟩ env (some d) = ⟨some d, csv⟩) ∧
    (∀ e, scrape_sensor_data env = .error e →
      startup_bootstrap ⟨none, csv⟩ env none = ⟨some skeleton_json_string, csv⟩) ∧
    skeleton_keyed.map Prod.fst = SENSOR_CATEGORIES.map Prod.fst ∧
    (∀ kv ∈ skeleton_keyed, kv.2 = ([] : List Entry)) ∧
    (startup_bootstrap ⟨none, csv⟩ env bundled).jsonContent.isSome = true := by
  refine ⟨fun c => rfl, ?_, ?_, ?_, rfl, by decide, ?_⟩
  · intro records h
    simp [startup_bootstrap, run_cycle, h]
  · intro e d h
    simp [startup_bootstrap, run_cycle, h]
  · intro e h
    simp [startup_bootstrap, run_cycle, h]
  · rcases hs : scrape_sensor_data env with e | records
    · cases bundled <;> simp [startup_bootstrap, run_cycle, hs]
    · simp [startup_bootstrap, run_cycle, hs]

/-- Witness for claim C6: a first start whose live scrape fails and with
no bundled fallback writes the empty skeleton, and an existing snapshot is
left untouched. -/
theorem c6_witness :
    startup_bootstrap ⟨none, none⟩ envFail none = ⟨some skeleton_json_string, none⟩ ∧
    startup_bootstrap ⟨some "J", none⟩ envFail none = ⟨some "J", none⟩ :=
  ⟨(c6_theorem none envFail none).2.2.2.1 "page load failed" rfl,
   (c6_theorem none envFail none).1 "J"⟩

/-- Claim C7 is false on the code: a successfully published snapshot's
top-level keys are the six fixed bucket names of `convert_csv_to_json`,
which include `river_flow_sensor` — a category that is not in the roster's
key set — so the key set is not exactly the roster's category set. -/
theorem c7_counterexample :
    scrape_sensor_data envGhost = .ok [ghostRec] ∧
    (toKeyed (convert_csv_to_json [ghostRec])).map Prod.fst ≠ SENSOR_CATEGORIES.map Prod.fst ∧
    "river_flow_sensor" ∈ (toKeyed (convert_csv_to_json [ghostRec])).map Prod.fst ∧
    "river_flow_sensor" ∉ SENSOR_CATEGORIES.map Prod.fst :=
  ⟨rfl, by decide, by decide, by decide⟩

/-- Claim C7 (amended): every published snapshot's top-level keys are the
six fixed bucket names — the roster's five categories plus
`river_flow_sensor` — in a fixed order, and each entry's keys are exactly
its category's schema fields. -/
theorem c7_amended (rows : List RawRow) :
    (toKeyed (convert_csv_to_json rows)).map Prod.fst =
      ["rain_gauge", "flood_sensors", "street_flood_sensors", "flood_risk_index",
       "river_flow_sensor", "earthquake_sensors"] ∧
    (∀ e ∈ (convert_csv_to_json rows).rain_gauge,
      e.map Prod.fst = ["SENSOR NAME", "CURRENT"]) ∧
    (∀ e ∈ (convert_csv_to_json rows).flood_sensors,
      e.map Prod.fst = ["SENSOR NAME", "NORMAL LEVEL", "CURRENT"]) ∧
    (∀ e ∈ (convert_csv_to_json rows).street_flood_sensors,
      e.map Prod.fst = ["SENSOR NAME", "NORMAL LEVEL", "CURRENT", "DESCRIPTION"]) ∧
    (∀ e ∈ (convert_csv_to_json rows).flood_risk_index,
      e.map Prod.fst = ["SENSOR NAME", "NORMAL LEVEL", "CURRENT"]) ∧
    (∀ e ∈ (convert_csv_to_json rows).river_flow_sensor,
      e.map Prod.fst = ["SENSOR NAME", "NORMAL LEVEL", "CURRENT"]) ∧
    (∀ e ∈ (convert_csv_to_json rows).earthquake_sensors,
      e.map Prod.fst = ["SENSOR NAME", "CURRENT"]) := by
  refine ⟨rfl, ?_, ?_, ?_, ?_, ?_, ?_⟩ <;> intro e he <;> rw [convert_csv_to_json_spec] at he
  · obtain ⟨r, _, rfl⟩ := List.mem_map.1 (show e ∈ rainPart rows from he); rfl
  · obtain ⟨r, _, rfl⟩ := List.mem_map.1 (show e ∈ floodPart rows from he); rfl
  · obtain ⟨r, _, rfl⟩ := List.mem_map.1 (show e ∈ streetPart rows from he); rfl
  · obtain ⟨r, _, rfl⟩ := List.mem_map.1 (show e ∈ riskPart rows from he); rfl
  · obtain ⟨r, _, rfl⟩ := List.mem_map.1 (show e ∈ riverPart rows from he); rfl
  · obtain ⟨r, _, rfl⟩ := List.mem_map.1 (show e ∈ quakePart rows from he); rfl

/-- Witness for the amended claim C7 at the concrete ghost-row snapshot. -/
theorem c7_amended_witness :
    (toKeyed (convert_csv_to_json [ghostRec])).map Prod.fst =
      ["rain_gauge", "flood_sensors", "street_flood_sensors", "flood_risk_index",
       "river_flow_sensor", "earthquake_sensors"] ∧
    (floodEntry ghostRec).map Prod.fst = ["SENSOR NAME", "NORMAL LEVEL", "CURRENT"] :=
  ⟨(c7_amended [ghostRec]).1,
   (c7_amended [ghostRec]).2.2.1 (floodEntry ghostRec) (by decide)⟩

/-- Claim C8 is false on the code: with the flood table located but its
only row too short, extraction yields zero records and the cycle raises
the hard `ValueError` failure — the failure is not restricted to the
no-tables-located case, and no all-default snapshot is published. -/
theorem c8_counterexample :
    tablesLocated skippedRowsPage = true ∧
    extract_all skippedRowsPage = .ok [] ∧
    scrape_sensor_data envSkipped = .error "No sensor data extracted. Check website structure." :=
  ⟨by decide, rfl, rfl⟩

/-- Claim C8 (amended): the cycle raises the hard `ValueError` whenever
zero records were extracted — whether or not any table was located — and a
successful cycle always carries a non-empty record list; default entries
are never synthesized. -/
theorem c8_amended (env : FetchEnv) :
    (∀ records, scrape_sensor_data env = .ok records → records ≠ []) ∧
    (wait_for_page_load env.loadOutcome 3 = .ok true → extract_all env.page = .ok [] →
      scrape_sensor_data env = .error "No sensor data extracted. Check website structure.") := by
  constructor
  · intro records h
    unfold scrape_sensor_data at h
    rcases hw : wait_for_page_load env.loadOutcome 3 with e | b
    · rw [hw] at h; exact absurd h (by simp)
    · rw [hw] at h
      cases b
      · exact absurd h (by simp)
      · rcases hx : extract_all env.page with e | records1
        · rw [hx] at h; exact absurd h (by simp)
        · rw [hx] at h
          cases records1 with
          | nil => simp at h
          | cons a l =>
            simp at h
            rw [← h]
            simp
  · intro hw hx
    simp [scrape_sensor_data, hw, hx]

/-- Witness for the amended claim C8: a successful cycle's record list is
non-empty, and the located-but-all-rows-skipped page makes the cycle
fail hard. -/
theorem c8_amended_witness :
    ([goodRec] : List RawRow) ≠ [] ∧
    scrape_sensor_data envSkipped = .error "No sensor data extracted. Check website structure." :=
  ⟨(c8_amended envGood).1 [goodRec] rfl, (c8_amended envSkipped).2 rfl rfl⟩

/-- Claim C9 identifies a code bug: a flood-sensors (or river-flow) table
row with exactly three cells passes the `len(cols) >= 3` guard, but the
loop body reads `cols[3]`, raising `IndexError` and aborting the whole
batch — the code evaluated at the failing input. -/
theorem c9_theorem :
    (["Station X", "10:00", "1.5m"] : List String).length = 3 ∧
    extractFloodRows [["Station X", "10:00", "1.5m"]] = .error "IndexError" ∧
    extractRiverRows [["Station Y", "10:00", "1.2m"]] = .error "IndexError" ∧
    scrape_sensor_data envThreeCol = .error "IndexError" :=
  ⟨rfl, rfl, rfl, rfl⟩

/-- Claim C10: categorization is deterministic — identical raw record
sequences produce byte-identical serialized snapshot documents. -/
theorem c10_theorem (rows1 rows2 : List RawRow) (h : rows1 = rows2) :
    serializeJson (convert_csv_to_json rows1) = serializeJson (convert_csv_to_json rows2) := by
  rw [h]

/-- Witness for claim C10 at a concrete record list. -/
theorem c10_witness :
    serializeJson (convert_csv_to_json [goodRec]) = serializeJson (convert_csv_to_json [goodRec]) :=
  c10_theorem [goodRec] [goodRec] rfl

end SensorScraper
